import Mathlib

/-
Verification of the Style Shepherd trend-integration service
(src/server/trend-service/trend_service.py) against its specification.

Modelling conventions:
- Python floats are modelled as exact rationals.  The arithmetic claims under
  scrutiny (normalization ranges, the 0.6/0.4 weighting, rounding) are about
  real-number arithmetic, not bit-level float behaviour.
- Python round(x, n) is banker-style rounding (round half to even), modelled
  exactly on the rationals by pythonRound below.
- Python dicts appearing as score mappings are modelled as association lists
  in insertion order with an upsert operation mirroring dict assignment.
- External effectful collaborators (the pytrends provider, the
  sklearn dataset/PCA/KMeans pipeline, the random module, the salted
  builtin string hash) are modelled as function parameters; the theorems
  quantify over them, so any proved property holds for every behaviour of
  the collaborator.
-/

-- ---------------------------------------------------------------------------
-- Utilities from trend_service.py
-- ---------------------------------------------------------------------------

/-- Model of the Python builtin max over a nonempty list, 0.0 for the empty
list, mirroring the expression in safe_normalize. -/
def pymax : List ℚ → ℚ
  | [] => 0
  | x :: xs => xs.foldl max x

/-- Model of the Python builtin min over a nonempty list, 0.0 for the empty
list, mirroring the expression in safe_normalize. -/
def pymin : List ℚ → ℚ
  | [] => 0
  | x :: xs => xs.foldl min x

/-- Model of safe_normalize: clamp each entry to be nonnegative, then min-max
scale into the unit interval, returning all zeros when max equals min. -/
def safe_normalize (scores : List ℚ) : List ℚ :=
  let arr := scores.map (fun s => max 0 s)
  let smax := pymax arr
  let smin := pymin arr
  if smax = smin then arr.map (fun _ => (0 : ℚ))
  else arr.map (fun v => (v - smin) / (smax - smin))

/-- Python round to the nearest integer, rounding halves to the even
neighbour, as an exact operation on rationals. -/
def pythonRound (q : ℚ) : ℤ :=
  let f := ⌊q⌋
  let r := q - (f : ℚ)
  if r < 1 / 2 then f
  else if 1 / 2 < r then f + 1
  else if f % 2 = 0 then f else f + 1

/-- Python round(x, 3). -/
def round3 (q : ℚ) : ℚ := (pythonRound (q * 1000) : ℚ) / 1000

/-- Python round(x, 4). -/
def round4 (q : ℚ) : ℚ := (pythonRound (q * 10000) : ℚ) / 10000

/-- Dictionary update d[k] = v on an insertion-ordered association list:
an existing key keeps its position and gets the new value, a new key is
appended at the end. -/
def upsert (m : List (String × ℚ)) (k : String) (v : ℚ) : List (String × ℚ) :=
  match m with
  | [] => [(k, v)]
  | (k', v') :: rest => if k' = k then (k, v) :: rest else (k', v') :: upsert rest k v

/-- Dictionary read d.get(k, default). -/
def dictGetD (m : List (String × ℚ)) (k : String) (d : ℚ) : ℚ :=
  match m with
  | [] => d
  | (k', v) :: rest => if k' = k then v else dictGetD rest k d

-- ---------------------------------------------------------------------------
-- Helper lemmas about pymax / pymin / safe_normalize
-- ---------------------------------------------------------------------------

lemma le_foldl_max (xs : List ℚ) (x : ℚ) : x ≤ xs.foldl max x := by
  induction xs generalizing x with
  | nil => exact le_refl x
  | cons y ys ih => exact le_trans (le_max_left x y) (ih (max x y))

lemma mem_le_foldl_max (xs : List ℚ) (x v : ℚ) (hv : v ∈ xs) : v ≤ xs.foldl max x := by
  induction xs generalizing x with
  | nil => cases hv
  | cons y ys ih =>
    rcases List.mem_cons.mp hv with h | h
    · subst h
      exact le_trans (le_max_right x v) (le_foldl_max ys (max x v))
    · exact ih (max x y) h

lemma foldl_min_le (xs : List ℚ) (x : ℚ) : xs.foldl min x ≤ x := by
  induction xs generalizing x with
  | nil => exact le_refl x
  | cons y ys ih => exact le_trans (ih (min x y)) (min_le_left x y)

lemma foldl_min_le_mem (xs : List ℚ) (x v : ℚ) (hv : v ∈ xs) : xs.foldl min x ≤ v := by
  induction xs generalizing x with
  | nil => cases hv
  | cons y ys ih =>
    rcases List.mem_cons.mp hv with h | h
    · subst h
      exact le_trans (foldl_min_le ys (min x v)) (min_le_right x v)
    · exact ih (min x y) h

lemma mem_le_pymax (l : List ℚ) (v : ℚ) (hv : v ∈ l) : v ≤ pymax l := by
  cases l with
  | nil => cases hv
  | cons x xs =>
    rcases List.mem_cons.mp hv with h | h
    · subst h; exact le_foldl_max xs v
    · exact mem_le_foldl_max xs x v h

lemma pymin_le_mem (l : List ℚ) (v : ℚ) (hv : v ∈ l) : pymin l ≤ v := by
  cases l with
  | nil => cases hv
  | cons x xs =>
    rcases List.mem_cons.mp hv with h | h
    · subst h; exact foldl_min_le xs v
    · exact foldl_min_le_mem xs x v h

lemma pymin_le_pymax (l : List ℚ) : pymin l ≤ pymax l := by
  cases l with
  | nil => exact le_refl 0
  | cons x xs =>
    exact le_trans (foldl_min_le xs x) (le_foldl_max xs x)

/-- Every output of safe_normalize lies in the unit interval. -/
lemma safe_normalize_mem_unit (scores : List ℚ) (v : ℚ)
    (hv : v ∈ safe_normalize scores) : 0 ≤ v ∧ v ≤ 1 := by
  unfold safe_normalize at hv
  set arr := scores.map (fun s => max 0 s) with harr
  by_cases h : pymax arr = pymin arr
  · simp only [h, if_pos rfl] at hv
    rcases List.mem_map.mp hv with ⟨w, _, hw⟩
    subst hw
    exact ⟨le_refl 0, zero_le_one⟩
  · simp only [if_neg h] at hv
    rcases List.mem_map.mp hv with ⟨w, hwmem, hw⟩
    subst hw
    have hle : pymin arr ≤ w := pymin_le_mem arr w hwmem
    have hge : w ≤ pymax arr := mem_le_pymax arr w hwmem
    have hlt : pymin arr < pymax arr :=
      lt_of_le_of_ne (pymin_le_pymax arr) (fun heq => h heq.symm)
    have hpos : 0 < pymax arr - pymin arr := by linarith
    constructor
    · exact div_nonneg (by linarith) (le_of_lt hpos)
    · rw [div_le_one hpos]; linarith

lemma safe_normalize_length (scores : List ℚ) :
    (safe_normalize scores).length = scores.length := by
  unfold safe_normalize
  by_cases h : pymax (scores.map (fun s => max 0 s)) = pymin (scores.map (fun s => max 0 s))
  · simp [h]
  · simp [h]

-- ---------------------------------------------------------------------------
-- C1
-- ---------------------------------------------------------------------------

/-- Claim C1: safe_normalize preserves length and order, clamps each input to
be nonnegative before scaling, returns all zeros whenever the clamped
sequence has max equal to min (including the empty and singleton cases), and
otherwise maps position i to (clamped v - min) / (max - min); every output
element lies in [0, 1]. -/
theorem C1_safe_normalize (scores : List ℚ) :
    (safe_normalize scores).length = scores.length
    ∧ (∀ v ∈ safe_normalize scores, 0 ≤ v ∧ v ≤ 1)
    ∧ (safe_normalize [] = [] ∧ ∀ a : ℚ, safe_normalize [a] = [0])
    ∧ (pymax (scores.map (fun s => max 0 s)) = pymin (scores.map (fun s => max 0 s)) →
        safe_normalize scores = List.replicate scores.length 0)
    ∧ (pymax (scores.map (fun s => max 0 s)) ≠ pymin (scores.map (fun s => max 0 s)) →
        ∀ i, i < scores.length →
          (safe_normalize scores).getD i 0 =
            (max 0 (scores.getD i 0) - pymin (scores.map (fun s => max 0 s))) /
              (pymax (scores.map (fun s => max 0 s)) - pymin (scores.map (fun s => max 0 s)))) := by
  refine ⟨safe_normalize_length scores, safe_normalize_mem_unit scores, ⟨rfl, ?_⟩, ?_, ?_⟩
  · intro a
    show safe_normalize [a] = [0]
    unfold safe_normalize
    simp [pymax, pymin]
  · intro h
    unfold safe_normalize
    simp only [h, if_pos rfl]
    rw [List.map_map, List.eq_replicate_iff]
    refine ⟨by simp, ?_⟩
    intro b hb
    rcases List.mem_map.mp hb with ⟨w, _, hw⟩
    exact hw.symm
  · intro h i hi
    unfold safe_normalize
    simp only [if_neg h]
    have hi2 : i < (scores.map (fun s => max 0 s)).length := by simpa using hi
    rw [List.getD_eq_getElem _ _ (by simpa using hi2), List.getElem_map,
      List.getD_eq_getElem _ _ hi, List.getElem_map]

/-- Witness for C1: both branches of the normalizer evaluated at concrete
inputs via the claim theorem. -/
theorem C1_safe_normalize_witness :
    safe_normalize [(2 : ℚ), 2] = List.replicate 2 0
    ∧ (safe_normalize [(4 : ℚ), -2]).getD 0 0 =
        (max 0 (4 : ℚ) - pymin ([(4 : ℚ), -2].map (fun s => max 0 s))) /
          (pymax ([(4 : ℚ), -2].map (fun s => max 0 s)) -
            pymin ([(4 : ℚ), -2].map (fun s => max 0 s))) := by
  constructor
  · exact (C1_safe_normalize [(2 : ℚ), 2]).2.2.2.1 (by norm_num [pymax, pymin])
  · exact (C1_safe_normalize [(4 : ℚ), -2]).2.2.2.2 (by norm_num [pymax, pymin]) 0 (by norm_num)

-- ---------------------------------------------------------------------------
-- Rounding bounds
-- ---------------------------------------------------------------------------

lemma pythonRound_bounds (a b : ℤ) (q : ℚ) (ha : (a : ℚ) ≤ q) (hb : q ≤ (b : ℚ)) :
    a ≤ pythonRound q ∧ pythonRound q ≤ b := by
  unfold pythonRound
  have hfa : a ≤ ⌊q⌋ := Int.le_floor.mpr ha
  have hfq : (⌊q⌋ : ℚ) ≤ q := Int.floor_le q
  have hfb : ⌊q⌋ ≤ b := by
    have : (⌊q⌋ : ℚ) ≤ (b : ℚ) := le_trans hfq hb
    exact_mod_cast this
  by_cases h1 : q - (⌊q⌋ : ℚ) < 1 / 2
  · simp only [if_pos h1]
    exact ⟨hfa, hfb⟩
  · simp only [if_neg h1]
    have hr : (1 : ℚ) / 2 ≤ q - (⌊q⌋ : ℚ) := le_of_not_lt h1
    have hflt : ⌊q⌋ < b := by
      have : (⌊q⌋ : ℚ) < (b : ℚ) := by linarith
      exact_mod_cast this
    by_cases h2 : 1 / 2 < q - (⌊q⌋ : ℚ)
    · simp only [if_pos h2]
      exact ⟨le_trans hfa (by omega), by omega⟩
    · simp only [if_neg h2]
      by_cases h3 : ⌊q⌋ % 2 = 0
      · simp only [if_pos h3]
        exact ⟨hfa, hfb⟩
      · simp only [if_neg h3]
        exact ⟨le_trans hfa (by omega), by omega⟩

lemma round3_mem_unit (q : ℚ) (h0 : 0 ≤ q) (h1 : q ≤ 1) :
    0 ≤ round3 q ∧ round3 q ≤ 1 := by
  unfold round3
  have hb := pythonRound_bounds 0 1000 (q * 1000) (by push_cast; linarith) (by push_cast; linarith)
  constructor
  · apply div_nonneg _ (by norm_num)
    exact_mod_cast hb.1
  · rw [div_le_one (by norm_num)]
    have : (pythonRound (q * 1000) : ℚ) ≤ ((1000 : ℤ) : ℚ) := by exact_mod_cast hb.2
    simpa using this

-- ---------------------------------------------------------------------------
-- mock_trend_scores (the hash parameter stands for the Python builtin string
-- hash of the running process, which is salted per process)
-- ---------------------------------------------------------------------------

/-- Model of mock_trend_scores.  The parameter h is the builtin string hash of
the current process.  For each keyword the raw score is derived from
abs(h k) mod 1000 and the keyword length, clamped into [0.01, 1], rounded,
then the whole batch is normalized and rounded again. -/
def mock_trend_scores (h : String → ℤ) (keywords : List String) : List (String × ℚ) :=
  let scores := keywords.foldl (fun acc k =>
    let hk := (h k).natAbs % 1000
    let base : ℚ := (((hk % 70) + (k.length % 30) : ℕ) : ℚ) / 100
    upsert acc k (round3 (min 1 (max (1 / 100) base)))) []
  let norm_vals := safe_normalize (scores.map (fun kv => kv.2))
  (scores.map (fun kv => kv.1)).zip (norm_vals.map round3)

-- ---------------------------------------------------------------------------
-- fetch_google_trends
-- ---------------------------------------------------------------------------

/-- A pytrends interest-over-time dataframe: one column of values per
keyword.  None models a missing dataframe. -/
def DF : Type := List (String × List ℚ)

/-- A dataframe is empty when it has no rows (every column has no values),
in particular when it has no columns. -/
def dfEmptyB (d : DF) : Bool := d.all (fun c => c.2.isEmpty)

/-- Column lookup in a dataframe. -/
def dfFind : DF → String → Option (List ℚ)
  | [], _ => none
  | (k', v) :: rest, k => if k' = k then some v else dfFind rest k

/-- The keyword list chunked into batches of five, mirroring the loop
for i in range(0, len(keywords), CHUNK) with CHUNK = 5. -/
def chunkList5 : List String → List (List String)
  | [] => []
  | x :: xs => ((x :: xs).take 5) :: chunkList5 ((x :: xs).drop 5)
termination_by l => l.length
decreasing_by simp; omega

/-- Mean of a column, 0.0 for an empty column, as in the source. -/
def colMean (vals : List ℚ) : ℚ :=
  if vals.length = 0 then 0 else vals.sum / (vals.length : ℚ)

/-- Accumulate the raw scores of one batch into the mapping: a missing or
empty dataframe assigns 0.0 to every keyword of the batch, otherwise each
keyword gets the mean of its column (0.0 when the column is absent). -/
def chunkScores (acc : List (String × ℚ)) (chunk : List String) (df : Option DF) :
    List (String × ℚ) :=
  match df with
  | none => chunk.foldl (fun a k => upsert a k 0) acc
  | some d =>
    if dfEmptyB d then chunk.foldl (fun a k => upsert a k 0) acc
    else chunk.foldl (fun a k =>
      match dfFind d k with
      | some vals => upsert a k (colMean vals)
      | none => upsert a k 0) acc

/-- Process the batches in order.  A provider error on any batch aborts the
whole fetch with a single error; the partial accumulator is discarded. -/
def processChunks (provider : List String → Except String (Option DF)) :
    List (List String) → List (String × ℚ) → Except String (List (String × ℚ))
  | [], acc => Except.ok acc
  | c :: rest, acc =>
    match provider c with
    | Except.error e => Except.error ("pytrends failure: " ++ e)
    | Except.ok df => processChunks provider rest (chunkScores acc c df)

/-- Model of fetch_google_trends.  The provider parameter stands for one
build_payload plus interest_over_time call on a batch; hasPytrends mirrors
the _HAS_PYTRENDS import flag. -/
def fetch_google_trends (hasPytrends : Bool)
    (provider : List String → Except String (Option DF))
    (keywords : List String) : Except String (List (String × ℚ)) :=
  if !hasPytrends then Except.error "pytrends not installed in this environment"
  else
    match processChunks provider (chunkList5 keywords) [] with
    | Except.error e => Except.error e
    | Except.ok all_scores =>
      let keys := all_scores.map (fun kv => kv.1)
      let vals := all_scores.map (fun kv => kv.2)
      Except.ok (keys.zip ((safe_normalize vals).map round4))

-- ---------------------------------------------------------------------------
-- C9
-- ---------------------------------------------------------------------------

/-- The fetch of an empty keyword list succeeds with the empty mapping,
uniformly in the provider. -/
lemma fetch_empty_keywords (provider : List String → Except String (Option DF)) :
    fetch_google_trends true provider [] = Except.ok [] := by
  simp [fetch_google_trends, chunkList5, processChunks, safe_normalize, pymax, pymin]

/-- Claim C9: fetch_google_trends applied to an empty keyword sequence
returns an empty mapping, without invoking the provider: the result is the
same for every provider behaviour, so no provider call can have been made. -/
theorem C9_fetch_empty (provider : List String → Except String (Option DF)) :
    fetch_google_trends true provider [] = Except.ok [] :=
  fetch_empty_keywords provider

-- ---------------------------------------------------------------------------
-- C4
-- ---------------------------------------------------------------------------

lemma processChunks_error (provider : List String → Except String (Option DF))
    (chunks : List (List String)) (acc : List (String × ℚ)) (c : List String) (e : String)
    (hc : c ∈ chunks) (he : provider c = Except.error e) :
    ∃ msg, processChunks provider chunks acc = Except.error msg := by
  induction chunks generalizing acc with
  | nil => cases hc
  | cons c0 rest ih =>
    rcases List.mem_cons.mp hc with h | h
    · subst h
      refine ⟨"pytrends failure: " ++ e, ?_⟩
      simp [processChunks, he]
    · unfold processChunks
      cases hp : provider c0 with
      | error e0 => exact ⟨"pytrends failure: " ++ e0, rfl⟩
      | ok df => exact ih (chunkScores acc c0 df) h

/-- Claim C4: if the provider call fails for any batch of the chunked keyword
list, the entire fetch fails with a single propagated error: the result is an
error and no mapping (in particular no partial mapping from earlier
successful batches) is returned. -/
theorem C4_fetch_error_propagation (provider : List String → Except String (Option DF))
    (keywords : List String) (c : List String) (e : String)
    (hc : c ∈ chunkList5 keywords) (he : provider c = Except.error e) :
    ∃ msg, fetch_google_trends true provider keywords = Except.error msg := by
  obtain ⟨msg, hmsg⟩ := processChunks_error provider (chunkList5 keywords) [] c e hc he
  refine ⟨msg, ?_⟩
  simp [fetch_google_trends, hmsg]

/-- Witness for C4: a provider that fails on its single batch makes the whole
fetch fail. -/
theorem C4_fetch_error_propagation_witness :
    (["a"] ∈ chunkList5 ["a"])
    ∧ ∃ msg, fetch_google_trends true (fun _ => Except.error "blocked") ["a"] =
        Except.error msg := by
  refine ⟨by simp [chunkList5], ?_⟩
  exact C4_fetch_error_propagation (fun _ => Except.error "blocked") ["a"] ["a"] "blocked"
    (by simp [chunkList5]) rfl

-- ---------------------------------------------------------------------------
-- C5
-- ---------------------------------------------------------------------------

/-- Claim C5 (refuting the across-run half): mock_trend_scores depends on the
builtin string hash of the running process, which Python salts per process.
Two legitimate per-process hash functions produce different score mappings for
the same keyword sequence, so the same category string does not always yield
the same score across runs, contradicting the docstring of the function
(deterministic mock scores, stable between runs). -/
theorem C5_mock_scores_hash_dependent :
    mock_trend_scores (fun s => if s = "a" then 0 else 69) ["a", "b"] = [("a", 0), ("b", 1)]
    ∧ mock_trend_scores (fun s => if s = "a" then 69 else 0) ["a", "b"] = [("a", 1), ("b", 0)]
    ∧ mock_trend_scores (fun s => if s = "a" then 0 else 69) ["a", "b"] ≠
        mock_trend_scores (fun s => if s = "a" then 69 else 0) ["a", "b"] := by
  have ha : ("a" : String).length = 1 := rfl
  have hb : ("b" : String).length = 1 := rfl
  refine ⟨?_, ?_, ?_⟩
  · simp [mock_trend_scores, upsert, ha, hb, round3, pythonRound]
    norm_num [safe_normalize, pymax, pymin, round3, pythonRound]
  · simp [mock_trend_scores, upsert, ha, hb, round3, pythonRound]
    norm_num [safe_normalize, pymax, pymin, round3, pythonRound]
  · simp [mock_trend_scores, upsert, ha, hb, round3, pythonRound]
    norm_num [safe_normalize, pymax, pymin, round3, pythonRound]

-- ---------------------------------------------------------------------------
-- compute_fashion_clusters
-- ---------------------------------------------------------------------------

/-- One entry of the clusters list in a cluster summary.  centroid_norm is
present only on the live path; label_hint is optional to mirror the
defensive dict access in the combiner. -/
structure ClusterEntry where
  cluster_id : ℤ
  count : ℤ
  sample_indices : List ℤ
  centroid_norm : Option ℚ
  label_hint : Option String

/-- The meta block of a cluster summary. -/
structure ClusterMeta where
  n_clusters : ℤ
  source : String
  sampled : Option ℤ

/-- A cluster summary as returned by compute_fashion_clusters. -/
structure ClustersResult where
  meta : ClusterMeta
  clusters : List ClusterEntry

/-- The module-level single-slot cache _CLUSTER_CACHE: either absent or one
entry holding a key string and a whole summary. -/
def ClusterCache : Type := Option (String × ClustersResult)

/-- The cache key string, as built by the f-string in the source. -/
def cacheKey (n_clusters sample_limit : ℤ) : String :=
  "clusters_" ++ toString n_clusters ++ "_" ++ toString sample_limit

/-- Model of numpy.where(labels == c)[0]: the positions (counted from k) at
which the list holds the value c. -/
def whereEq : List ℤ → ℤ → ℕ → List ℕ
  | [], _, _ => []
  | x :: xs, c, k => if x = c then k :: whereEq xs c (k + 1) else whereEq xs c (k + 1)

/-- The body of compute_fashion_clusters past the cache check.  hasSklearn
mirrors the _HAS_SKLEARN import flag.  The pipeline parameter stands for the
dataset download, subsampling, PCA and KMeans fit: on success it yields the
chosen original-dataset indices idx, the per-sample cluster labels, and the
centroid norms; a raised exception is an error value.  mockEnt and fbEnt
stand for the random count / sample indices / label draws of the mock and
fallback paths.  The produced summary is stored in the cache slot as one
complete entry together with its key. -/
def computeClustersBody (hasSklearn : Bool)
    (pipeline : ℤ → ℤ → Except String (List ℤ × List ℤ × List ℚ))
    (mockEnt fbEnt : ℕ → ℤ × List ℤ × String)
    (n_clusters sample_limit : ℤ) : ClustersResult × ClusterCache :=
  let key := cacheKey n_clusters sample_limit
  if !hasSklearn then
    let cl := (List.range n_clusters.toNat).map (fun (i : ℕ) =>
      { cluster_id := (i : ℤ), count := (mockEnt i).1,
        sample_indices := (mockEnt i).2.1, centroid_norm := none,
        label_hint := some (mockEnt i).2.2 : ClusterEntry })
    let res : ClustersResult :=
      { meta := { n_clusters := n_clusters, source := "mock", sampled := none },
        clusters := cl }
    (res, some (key, res))
  else
    match pipeline n_clusters sample_limit with
    | Except.ok (idx, labels, cents) =>
      let cl := (List.range n_clusters.toNat).map (fun (c : ℕ) =>
        let inds := whereEq labels (c : ℤ) 0
        { cluster_id := (c : ℤ), count := (inds.length : ℤ),
          sample_indices := (inds.take 5).map (fun i => idx.getD i 0),
          centroid_norm := some (cents.getD c 0),
          label_hint := some "unknown" : ClusterEntry })
      let res : ClustersResult :=
        { meta := { n_clusters := n_clusters, source := "fashion-mnist",
                    sampled := some (idx.length : ℤ) },
          clusters := cl }
      (res, some (key, res))
    | Except.error _ =>
      let cl := (List.range n_clusters.toNat).map (fun (i : ℕ) =>
        { cluster_id := (i : ℤ), count := (fbEnt i).1,
          sample_indices := (fbEnt i).2.1, centroid_norm := none,
          label_hint := some (fbEnt i).2.2 : ClusterEntry })
      let res : ClustersResult :=
        { meta := { n_clusters := n_clusters, source := "fallback_error", sampled := none },
          clusters := cl }
      (res, some (key, res))

/-- Model of compute_fashion_clusters: return the cached value untouched on
an exact key match, otherwise run the body and replace the cache slot. -/
def compute_fashion_clusters (hasSklearn : Bool)
    (pipeline : ℤ → ℤ → Except String (List ℤ × List ℤ × List ℚ))
    (mockEnt fbEnt : ℕ → ℤ × List ℤ × String)
    (n_clusters sample_limit : ℤ) (cache : ClusterCache) : ClustersResult × ClusterCache :=
  let key := cacheKey n_clusters sample_limit
  match cache with
  | some (k, v) =>
    if k = key then (v, some (k, v))
    else computeClustersBody hasSklearn pipeline mockEnt fbEnt n_clusters sample_limit
  | none => computeClustersBody hasSklearn pipeline mockEnt fbEnt n_clusters sample_limit

/-- The cache does not hold the given key (a miss). -/
def cacheMiss (cache : ClusterCache) (key : String) : Prop :=
  match cache with
  | some (k, _) => k ≠ key
  | none => True

lemma compute_on_miss (hasSklearn : Bool)
    (pipeline : ℤ → ℤ → Except String (List ℤ × List ℤ × List ℚ))
    (mockEnt fbEnt : ℕ → ℤ × List ℤ × String)
    (n_clusters sample_limit : ℤ) (cache : ClusterCache)
    (h : cacheMiss cache (cacheKey n_clusters sample_limit)) :
    compute_fashion_clusters hasSklearn pipeline mockEnt fbEnt n_clusters sample_limit cache =
      computeClustersBody hasSklearn pipeline mockEnt fbEnt n_clusters sample_limit := by
  match cache with
  | none => rfl
  | some (k, v) =>
    unfold compute_fashion_clusters
    simp only []
    rw [if_neg h]

lemma computeClustersBody_cache_slot (hasSklearn : Bool)
    (pipeline : ℤ → ℤ → Except String (List ℤ × List ℤ × List ℚ))
    (mockEnt fbEnt : ℕ → ℤ × List ℤ × String)
    (n_clusters sample_limit : ℤ) :
    (computeClustersBody hasSklearn pipeline mockEnt fbEnt n_clusters sample_limit).2 =
      some (cacheKey n_clusters sample_limit,
        (computeClustersBody hasSklearn pipeline mockEnt fbEnt n_clusters sample_limit).1) := by
  unfold computeClustersBody
  cases hasSklearn with
  | false => rfl
  | true =>
    simp only [Bool.not_true]
    cases pipeline n_clusters sample_limit with
    | ok t =>
      match t with
      | (idx, labels, cents) => rfl
    | error e => rfl

-- ---------------------------------------------------------------------------
-- C3
-- ---------------------------------------------------------------------------

/-- Claim C3: the summarizer cache is a single slot keyed exactly by the
(n_clusters, sample_limit) pair.  A call whose key equals the cached key
returns the cached value unchanged, uniformly in every collaborator
parameter, so nothing is recomputed; a call with a different key behaves
exactly as a call on an empty cache and afterwards the slot holds one
complete entry, the new key together with the freshly computed value; in the
8/5000 then 3/5000 then 8/5000 scenario the third call equals a fresh
computation by the third call's own collaborators, not the value cached by
the first call. -/
theorem C3_single_slot_cache :
    (∀ (hS : Bool) pipe mo fb (n s : ℤ) (v : ClustersResult),
      compute_fashion_clusters hS pipe mo fb n s (some (cacheKey n s, v)) =
        (v, some (cacheKey n s, v)))
    ∧ (∀ (hS : Bool) pipe mo fb (n s : ℤ) (cache : ClusterCache),
        cacheMiss cache (cacheKey n s) →
        compute_fashion_clusters hS pipe mo fb n s cache =
          ((compute_fashion_clusters hS pipe mo fb n s none).1,
            some (cacheKey n s, (compute_fashion_clusters hS pipe mo fb n s none).1)))
    ∧ (∀ (hS1 : Bool) pipe1 mo1 fb1 (hS2 : Bool) pipe2 mo2 fb2 (hS3 : Bool) pipe3 mo3 fb3,
        (compute_fashion_clusters hS3 pipe3 mo3 fb3 8 5000
          (compute_fashion_clusters hS2 pipe2 mo2 fb2 3 5000
            (compute_fashion_clusters hS1 pipe1 mo1 fb1 8 5000 none).2).2) =
          compute_fashion_clusters hS3 pipe3 mo3 fb3 8 5000 none) := by
  have hbody : ∀ (hS : Bool) pipe mo fb (n s : ℤ),
      compute_fashion_clusters hS pipe mo fb n s none =
        computeClustersBody hS pipe mo fb n s := fun _ _ _ _ _ _ => rfl
  have hmiss : ∀ (hS : Bool) pipe mo fb (n s : ℤ) (cache : ClusterCache),
      cacheMiss cache (cacheKey n s) →
      compute_fashion_clusters hS pipe mo fb n s cache =
        ((compute_fashion_clusters hS pipe mo fb n s none).1,
          some (cacheKey n s, (compute_fashion_clusters hS pipe mo fb n s none).1)) := by
    intro hS pipe mo fb n s cache hm
    rw [compute_on_miss hS pipe mo fb n s cache hm, hbody]
    have hslot := computeClustersBody_cache_slot hS pipe mo fb n s
    exact Prod.ext rfl hslot
  refine ⟨?_, hmiss, ?_⟩
  · intro hS pipe mo fb n s v
    simp [compute_fashion_clusters]
  · intro hS1 pipe1 mo1 fb1 hS2 pipe2 mo2 fb2 hS3 pipe3 mo3 fb3
    have h1 : (compute_fashion_clusters hS1 pipe1 mo1 fb1 8 5000 none).2 =
        some (cacheKey 8 5000, (compute_fashion_clusters hS1 pipe1 mo1 fb1 8 5000 none).1) := by
      rw [hbody]; exact computeClustersBody_cache_slot hS1 pipe1 mo1 fb1 8 5000
    have h2 := hmiss hS2 pipe2 mo2 fb2 3 5000
      (compute_fashion_clusters hS1 pipe1 mo1 fb1 8 5000 none).2
      (by rw [h1]; exact (by decide : cacheKey 8 5000 ≠ cacheKey 3 5000))
    have h3 : (compute_fashion_clusters hS2 pipe2 mo2 fb2 3 5000
        (compute_fashion_clusters hS1 pipe1 mo1 fb1 8 5000 none).2).2 =
        some (cacheKey 3 5000,
          (compute_fashion_clusters hS2 pipe2 mo2 fb2 3 5000 none).1) := by
      rw [h2]
    rw [h3]
    exact compute_on_miss hS3 pipe3 mo3 fb3 8 5000 _
      (by exact (by decide : cacheKey 3 5000 ≠ cacheKey 8 5000))

/-- A throwaway pipeline standing for an offline clustering dependency. -/
def demoPipeline : ℤ → ℤ → Except String (List ℤ × List ℤ × List ℚ) :=
  fun _ _ => Except.error "offline"

/-- A throwaway draw of mock cluster randomness. -/
def demoMockEnt : ℕ → ℤ × List ℤ × String := fun _ => (30, [1, 2, 3], "tops")

/-- A throwaway draw of fallback cluster randomness. -/
def demoFbEnt : ℕ → ℤ × List ℤ × String := fun _ => (10, [], "dresses")

/-- A throwaway cached summary value. -/
def demoRes : ClustersResult :=
  { meta := { n_clusters := 0, source := "mock", sampled := none }, clusters := [] }

/-- Witness for C3: the cache behaviours at concrete keys, cached values and
collaborators. -/
theorem C3_single_slot_cache_witness :
    (compute_fashion_clusters false demoPipeline demoMockEnt demoFbEnt 2 4
        (some (cacheKey 2 4, demoRes)) = (demoRes, some (cacheKey 2 4, demoRes)))
    ∧ (compute_fashion_clusters false demoPipeline demoMockEnt demoFbEnt 2 4
        (some ("stale", demoRes)) =
          ((compute_fashion_clusters false demoPipeline demoMockEnt demoFbEnt 2 4 none).1,
            some (cacheKey 2 4,
              (compute_fashion_clusters false demoPipeline demoMockEnt demoFbEnt 2 4 none).1)))
    ∧ ((compute_fashion_clusters false demoPipeline demoMockEnt demoFbEnt 8 5000
          (compute_fashion_clusters false demoPipeline demoMockEnt demoFbEnt 3 5000
            (compute_fashion_clusters false demoPipeline demoMockEnt demoFbEnt 8 5000
              none).2).2) =
        compute_fashion_clusters false demoPipeline demoMockEnt demoFbEnt 8 5000 none) := by
  refine ⟨C3_single_slot_cache.1 false demoPipeline demoMockEnt demoFbEnt 2 4 demoRes,
    C3_single_slot_cache.2.1 false demoPipeline demoMockEnt demoFbEnt 2 4
      (some ("stale", demoRes)) ?_,
    C3_single_slot_cache.2.2 false demoPipeline demoMockEnt demoFbEnt
      false demoPipeline demoMockEnt demoFbEnt false demoPipeline demoMockEnt demoFbEnt⟩
  exact (by decide : ("stale" : String) ≠ cacheKey 2 4)

-- ---------------------------------------------------------------------------
-- Helper lemmas for the live clustering path
-- ---------------------------------------------------------------------------

lemma whereEq_length_start (l : List ℤ) (c : ℤ) (k k' : ℕ) :
    (whereEq l c k).length = (whereEq l c k').length := by
  induction l generalizing k k' with
  | nil => rfl
  | cons x xs ih =>
    unfold whereEq
    by_cases h : x = c
    · simp only [if_pos h, List.length_cons]
      exact congrArg Nat.succ (ih (k + 1) (k' + 1))
    · simp only [if_neg h]
      exact ih (k + 1) (k' + 1)

lemma whereEq_mem_lt (l : List ℤ) (c : ℤ) (k i : ℕ) (hi : i ∈ whereEq l c k) :
    i < k + l.length := by
  induction l generalizing k with
  | nil => cases hi
  | cons x xs ih =>
    unfold whereEq at hi
    by_cases h : x = c
    · simp only [if_pos h, List.mem_cons] at hi
      rcases hi with h0 | h0
      · subst h0; simp
      · have := ih (k + 1) h0
        simp only [List.length_cons]
        omega
    · simp only [if_neg h] at hi
      have := ih (k + 1) hi
      simp only [List.length_cons]
      omega

lemma sum_map_add (l : List ℕ) (f g : ℕ → ℕ) :
    (l.map (fun c => f c + g c)).sum = (l.map f).sum + (l.map g).sum := by
  induction l with
  | nil => rfl
  | cons x xs ih => simp [ih]; omega

lemma whereEq_cons (x : ℤ) (xs : List ℤ) (c : ℤ) (k : ℕ) :
    whereEq (x :: xs) c k =
      if x = c then k :: whereEq xs c (k + 1) else whereEq xs c (k + 1) := rfl

lemma sum_indicator_zero (m : ℕ) (x : ℤ) (hx : ∀ c : ℕ, c < m → x ≠ (c : ℤ)) :
    ((List.range m).map (fun (c : ℕ) => if x = (c : ℤ) then 1 else 0)).sum = 0 := by
  apply List.sum_eq_zero
  intro a ha
  rcases List.mem_map.mp ha with ⟨c, hc, hac⟩
  rw [if_neg (hx c (List.mem_range.mp hc))] at hac
  exact hac.symm

lemma sum_indicator_one (m c0 : ℕ) (hc0 : c0 < m) (x : ℤ) (hx : x = (c0 : ℤ)) :
    ((List.range m).map (fun (c : ℕ) => if x = (c : ℤ) then 1 else 0)).sum = 1 := by
  induction m with
  | zero => omega
  | succ m ih =>
    rw [List.range_succ, List.map_append, List.sum_append]
    by_cases h : c0 = m
    · subst h
      have hzero : ((List.range c0).map (fun (c : ℕ) => if x = (c : ℤ) then 1 else 0)).sum = 0 := by
        apply sum_indicator_zero
        intro c hc
        rw [hx]
        intro hcontra
        have : c0 = c := by exact_mod_cast hcontra
        omega
      rw [hzero, hx]
      simp
    · have hlt : c0 < m := by omega
      rw [ih hlt]
      have : x ≠ (m : ℤ) := by
        rw [hx]
        intro hcontra
        have : c0 = m := by exact_mod_cast hcontra
        exact h this
      simp [this]

lemma sum_whereEq_lengths (m : ℕ) (l : List ℤ)
    (h : ∀ x ∈ l, ∃ c : ℕ, c < m ∧ x = (c : ℤ)) :
    ((List.range m).map (fun (c : ℕ) => (whereEq l (c : ℤ) 0).length)).sum = l.length := by
  induction l with
  | nil =>
    simp [whereEq]
  | cons x xs ih =>
    have hx := h x (List.mem_cons_self x xs)
    have hxs : ∀ y ∈ xs, ∃ c : ℕ, c < m ∧ y = (c : ℤ) :=
      fun y hy => h y (List.mem_cons_of_mem x hy)
    have hstep : ∀ c : ℕ, (whereEq (x :: xs) (c : ℤ) 0).length =
        (if x = (c : ℤ) then 1 else 0) + (whereEq xs (c : ℤ) 0).length := by
      intro c
      rw [whereEq_cons]
      by_cases hxc : x = (c : ℤ)
      · rw [if_pos hxc, if_pos hxc, List.length_cons,
          whereEq_length_start xs (c : ℤ) 1 0]
        omega
      · rw [if_neg hxc, if_neg hxc, whereEq_length_start xs (c : ℤ) 1 0]
        omega
    have hmap : (List.range m).map (fun (c : ℕ) => (whereEq (x :: xs) (c : ℤ) 0).length) =
        (List.range m).map (fun (c : ℕ) =>
          (if x = (c : ℤ) then 1 else 0) + (whereEq xs (c : ℤ) 0).length) :=
      List.map_congr_left (fun c _ => hstep c)
    rw [hmap, sum_map_add]
    rcases hx with ⟨c0, hc0, hxc0⟩
    rw [sum_indicator_one m c0 hc0 x hxc0, ih hxs]
    simp [Nat.add_comm]

lemma sum_map_natCast_int (l : List ℕ) (f : ℕ → ℕ) :
    ((l.map (fun a => ((f a : ℕ) : ℤ))).sum) = (((l.map f).sum : ℕ) : ℤ) := by
  induction l with
  | nil => rfl
  | cons x xs ih => simp [ih]

-- ---------------------------------------------------------------------------
-- C6
-- ---------------------------------------------------------------------------

lemma computeClustersBody_live
    (pipe : ℤ → ℤ → Except String (List ℤ × List ℤ × List ℚ))
    (mo fb : ℕ → ℤ × List ℤ × String) (n s : ℤ)
    (idx labels : List ℤ) (cents : List ℚ)
    (hpipe : pipe n s = Except.ok (idx, labels, cents)) :
    (computeClustersBody true pipe mo fb n s).1 =
      { meta := { n_clusters := n, source := "fashion-mnist",
                  sampled := some ((idx.length : ℤ)) },
        clusters := (List.range n.toNat).map (fun (c : ℕ) =>
          let inds := whereEq labels (c : ℤ) 0
          { cluster_id := (c : ℤ), count := (inds.length : ℤ),
            sample_indices := (inds.take 5).map (fun i => idx.getD i 0),
            centroid_norm := some (cents.getD c 0),
            label_hint := some "unknown" : ClusterEntry }) } := by
  unfold computeClustersBody
  rw [hpipe]
  rfl

/-- Claim C6: on the live clustering path (sklearn available, pipeline
succeeds) with positive n_clusters and sample_limit and a cache miss, the
summary is tagged fashion-mnist, its cluster_id values are exactly the dense
range [0, n_clusters), its counts sum to the sampled population size (the
number of sampled rows, which also appears in the meta block), and each
cluster carries at most five sample indices, all of which are members of the
chosen original-dataset index list idx, hence positions in the original
dataset rather than positions within the subsample. -/
theorem C6_live_cluster_summaries
    (pipe : ℤ → ℤ → Except String (List ℤ × List ℤ × List ℚ))
    (mo fb : ℕ → ℤ × List ℤ × String) (N : ℕ) (n s : ℤ) (cache : ClusterCache)
    (idx labels : List ℤ) (cents : List ℚ)
    (hn : 0 < n) (_hs : 0 < s)
    (hmiss : cacheMiss cache (cacheKey n s))
    (hpipe : pipe n s = Except.ok (idx, labels, cents))
    (hlen : labels.length = idx.length)
    (hlab : ∀ x ∈ labels, 0 ≤ x ∧ x < n)
    (hidx : ∀ i ∈ idx, 0 ≤ i ∧ i < (N : ℤ)) :
    (compute_fashion_clusters true pipe mo fb n s cache).1.meta.source = "fashion-mnist"
    ∧ (compute_fashion_clusters true pipe mo fb n s cache).1.meta.sampled =
        some ((idx.length : ℤ))
    ∧ ((compute_fashion_clusters true pipe mo fb n s cache).1.clusters.map
        (fun e => e.cluster_id)) = (List.range n.toNat).map (fun (c : ℕ) => (c : ℤ))
    ∧ ((compute_fashion_clusters true pipe mo fb n s cache).1.clusters.map
        (fun e => e.count)).sum = ((idx.length : ℤ))
    ∧ ∀ e ∈ (compute_fashion_clusters true pipe mo fb n s cache).1.clusters,
        e.sample_indices.length ≤ 5
        ∧ ∀ j ∈ e.sample_indices, j ∈ idx ∧ 0 ≤ j ∧ j < (N : ℤ) := by
  have hc : (compute_fashion_clusters true pipe mo fb n s cache).1 =
      (computeClustersBody true pipe mo fb n s).1 := by
    rw [compute_on_miss true pipe mo fb n s cache hmiss]
  rw [hc, computeClustersBody_live pipe mo fb n s idx labels cents hpipe]
  refine ⟨rfl, rfl, ?_, ?_, ?_⟩
  · rw [List.map_map]
    rfl
  · rw [List.map_map]
    have hmapped : ((List.range n.toNat).map
        ((fun (e : ClusterEntry) => e.count) ∘ (fun (c : ℕ) =>
          let inds := whereEq labels (c : ℤ) 0
          { cluster_id := (c : ℤ), count := (inds.length : ℤ),
            sample_indices := (inds.take 5).map (fun i => idx.getD i 0),
            centroid_norm := some (cents.getD c 0),
            label_hint := some "unknown" : ClusterEntry }))) =
        (List.range n.toNat).map (fun (c : ℕ) =>
          (((whereEq labels (c : ℤ) 0).length : ℕ) : ℤ)) := rfl
    rw [hmapped, sum_map_natCast_int]
    have hsum := sum_whereEq_lengths n.toNat labels (by
      intro x hx
      rcases hlab x hx with ⟨hx0, hxn⟩
      exact ⟨x.toNat, by omega, (Int.toNat_of_nonneg hx0).symm⟩)
    rw [hsum, hlen]
  · intro e he
    rcases List.mem_map.mp he with ⟨c, _, hce⟩
    subst hce
    constructor
    · rw [List.length_map]
      exact List.length_take_le 5 (whereEq labels (c : ℤ) 0)
    · intro j hj
      rcases List.mem_map.mp hj with ⟨i, hi, hij⟩
      have hi2 : i ∈ whereEq labels (c : ℤ) 0 :=
        (List.take_sublist 5 (whereEq labels (c : ℤ) 0)).mem hi
      have hilt : i < idx.length := by
        have := whereEq_mem_lt labels (c : ℤ) 0 i hi2
        omega
      have hjmem : j ∈ idx := by
        rw [← hij, List.getD_eq_getElem idx 0 hilt]
        exact List.getElem_mem hilt
      exact ⟨hjmem, (hidx j hjmem).1, (hidx j hjmem).2⟩

/-- A throwaway successful clustering pipeline: three sampled rows with
original indices 7, 3, 9 and labels 0, 1, 0. -/
def demoLivePipeline : ℤ → ℤ → Except String (List ℤ × List ℤ × List ℚ) :=
  fun _ _ => Except.ok ([7, 3, 9], [0, 1, 0], [])

/-- Witness for C6: the live path evaluated on a concrete pipeline outcome
with two clusters over three sampled points of a ten-row dataset. -/
theorem C6_live_cluster_summaries_witness :
    (compute_fashion_clusters true demoLivePipeline demoMockEnt demoFbEnt 2 3
      none).1.meta.source = "fashion-mnist"
    ∧ (compute_fashion_clusters true demoLivePipeline demoMockEnt demoFbEnt 2 3
        none).1.meta.sampled = some ((([7, 3, 9] : List ℤ).length : ℤ))
    ∧ ((compute_fashion_clusters true demoLivePipeline demoMockEnt demoFbEnt 2 3
        none).1.clusters.map (fun e => e.cluster_id)) =
        (List.range (2 : ℤ).toNat).map (fun (c : ℕ) => (c : ℤ))
    ∧ ((compute_fashion_clusters true demoLivePipeline demoMockEnt demoFbEnt 2 3
        none).1.clusters.map (fun e => e.count)).sum = ((([7, 3, 9] : List ℤ).length : ℤ))
    ∧ ∀ e ∈ (compute_fashion_clusters true demoLivePipeline demoMockEnt demoFbEnt 2 3
        none).1.clusters,
        e.sample_indices.length ≤ 5
        ∧ ∀ j ∈ e.sample_indices, j ∈ ([7, 3, 9] : List ℤ) ∧ 0 ≤ j ∧ j < ((10 : ℕ) : ℤ) :=
  C6_live_cluster_summaries demoLivePipeline demoMockEnt demoFbEnt 10 2 3 none
    [7, 3, 9] [0, 1, 0] [] (by norm_num) (by norm_num) trivial rfl rfl
    (by decide) (by decide)

-- ---------------------------------------------------------------------------
-- C10
-- ---------------------------------------------------------------------------

/-- Claim C10: for n_clusters at most 0 (any sample_limit), a cache-missing
call of compute_fashion_clusters returns normally with an empty clusters
sequence instead of raising or rejecting: when the clustering dependency is
unavailable the summary is tagged mock, and when the dependency is available
but the live pipeline raises (as KMeans does on an invalid cluster count)
the summary is tagged fallback_error; in both cases the empty result is
stored in the cache slot under the requested key. -/
theorem C10_nonpositive_clusters
    (pipe : ℤ → ℤ → Except String (List ℤ × List ℤ × List ℚ))
    (mo fb : ℕ → ℤ × List ℤ × String) (n s : ℤ) (cache : ClusterCache)
    (hn : n ≤ 0) (hmiss : cacheMiss cache (cacheKey n s)) :
    ((compute_fashion_clusters false pipe mo fb n s cache).1.clusters = []
      ∧ (compute_fashion_clusters false pipe mo fb n s cache).1.meta.source = "mock"
      ∧ (compute_fashion_clusters false pipe mo fb n s cache).2 =
          some (cacheKey n s, (compute_fashion_clusters false pipe mo fb n s cache).1))
    ∧ (∀ err, pipe n s = Except.error err →
        (compute_fashion_clusters true pipe mo fb n s cache).1.clusters = []
        ∧ (compute_fashion_clusters true pipe mo fb n s cache).1.meta.source =
            "fallback_error"
        ∧ (compute_fashion_clusters true pipe mo fb n s cache).2 =
            some (cacheKey n s, (compute_fashion_clusters true pipe mo fb n s cache).1)) := by
  have hrange : List.range n.toNat = [] := by
    have : n.toNat = 0 := by omega
    rw [this]
    rfl
  constructor
  · rw [compute_on_miss false pipe mo fb n s cache hmiss]
    have hbody : computeClustersBody false pipe mo fb n s =
        ({ meta := { n_clusters := n, source := "mock", sampled := none },
           clusters := [] },
          some (cacheKey n s,
            { meta := { n_clusters := n, source := "mock", sampled := none },
              clusters := [] })) := by
      unfold computeClustersBody
      rw [hrange]
      rfl
    rw [hbody]
    exact ⟨rfl, rfl, rfl⟩
  · intro err herr
    rw [compute_on_miss true pipe mo fb n s cache hmiss]
    have hbody : computeClustersBody true pipe mo fb n s =
        ({ meta := { n_clusters := n, source := "fallback_error", sampled := none },
           clusters := [] },
          some (cacheKey n s,
            { meta := { n_clusters := n, source := "fallback_error", sampled := none },
              clusters := [] })) := by
      unfold computeClustersBody
      rw [herr, hrange]
      rfl
    rw [hbody]
    exact ⟨rfl, rfl, rfl⟩

/-- Witness for C10: n_clusters = 0 with an empty cache, an offline pipeline
for the mock conjunct and an erroring pipeline for the fallback conjunct. -/
theorem C10_nonpositive_clusters_witness :
    ((compute_fashion_clusters false demoPipeline demoMockEnt demoFbEnt 0 5 none).1.clusters = []
      ∧ (compute_fashion_clusters false demoPipeline demoMockEnt demoFbEnt 0 5
          none).1.meta.source = "mock"
      ∧ (compute_fashion_clusters false demoPipeline demoMockEnt demoFbEnt 0 5 none).2 =
          some (cacheKey 0 5,
            (compute_fashion_clusters false demoPipeline demoMockEnt demoFbEnt 0 5 none).1))
    ∧ (∀ err, demoPipeline 0 5 = Except.error err →
        (compute_fashion_clusters true demoPipeline demoMockEnt demoFbEnt 0 5
          none).1.clusters = []
        ∧ (compute_fashion_clusters true demoPipeline demoMockEnt demoFbEnt 0 5
            none).1.meta.source = "fallback_error"
        ∧ (compute_fashion_clusters true demoPipeline demoMockEnt demoFbEnt 0 5 none).2 =
            some (cacheKey 0 5,
              (compute_fashion_clusters true demoPipeline demoMockEnt demoFbEnt 0 5
                none).1)) :=
  C10_nonpositive_clusters demoPipeline demoMockEnt demoFbEnt 0 5 none (by norm_num) trivial

-- ---------------------------------------------------------------------------
-- combine_trends_with_clusters
-- ---------------------------------------------------------------------------

/-- One entry of the combined ranking. -/
structure CombinedEntry where
  cluster_id : ℤ
  category : String
  cluster_pop_score : ℚ
  trend_score : ℚ
  combined_score : ℚ
  sample_indices : List ℤ

/-- The payload returned by combine_trends_with_clusters: the joined entries
and the trend-only extras. -/
structure CombineResult where
  clusters : List CombinedEntry
  extra_trends : List (String × ℚ)

/-- The resolved display category of a cluster: its label_hint when present
and nonempty (Python truthiness of the or-expression), else a name derived
from the cluster id. -/
def resolveCategory (c : ClusterEntry) : String :=
  match c.label_hint with
  | some lab => if lab = "" then "cluster_" ++ toString c.cluster_id else lab
  | none => "cluster_" ++ toString c.cluster_id

/-- Model of combine_trends_with_clusters: normalize the cluster counts into
popularity scores, join each cluster with its trend score (0.0 when the
resolved category is absent from the mapping), weight 0.6 trend plus 0.4
popularity, round for presentation, and emit the unmatched trend categories
in mapping order as extras. -/
def combine_trends_with_clusters (trend_scores : List (String × ℚ))
    (cs : ClustersResult) : CombineResult :=
  let cluster_counts : List ℚ := cs.clusters.map (fun c => (c.count : ℚ))
  let pop_norm := if cluster_counts = [] then [] else safe_normalize cluster_counts
  let cluster_info := (cs.clusters.zip pop_norm).map (fun cp =>
    let cat := resolveCategory cp.1
    let trend_val := dictGetD trend_scores cat 0
    let combined := (0.6 : ℚ) * trend_val + (0.4 : ℚ) * cp.2
    { cluster_id := cp.1.cluster_id, category := cat,
      cluster_pop_score := round3 cp.2, trend_score := round3 trend_val,
      combined_score := round3 combined,
      sample_indices := cp.1.sample_indices.take 3 : CombinedEntry })
  let extra_trends := (trend_scores.filter (fun kv =>
    !(cluster_info.any (fun ci => ci.category == kv.1)))).map (fun kv =>
      (kv.1, round3 kv.2))
  { clusters := cluster_info, extra_trends := extra_trends }

-- ---------------------------------------------------------------------------
-- C2
-- ---------------------------------------------------------------------------

lemma dictGetD_bounded (m : List (String × ℚ)) (k : String) (d : ℚ)
    (hm : ∀ kv ∈ m, 0 ≤ kv.2 ∧ kv.2 ≤ 1) (hd : 0 ≤ d ∧ d ≤ 1) :
    0 ≤ dictGetD m k d ∧ dictGetD m k d ≤ 1 := by
  induction m with
  | nil => exact hd
  | cons kv rest ih =>
    match kv with
    | (k', v) =>
      unfold dictGetD
      by_cases h : k' = k
      · rw [if_pos h]
        exact hm (k', v) (List.mem_cons_self _ _)
      · rw [if_neg h]
        exact ih (fun kv hkv => hm kv (List.mem_cons_of_mem _ hkv))

/-- The clusters list of the combined result, written out with the lets of
the definition inlined. -/
lemma combine_clusters_eq (trend_scores : List (String × ℚ)) (cs : ClustersResult) :
    (combine_trends_with_clusters trend_scores cs).clusters =
      (cs.clusters.zip (if cs.clusters.map (fun c => (c.count : ℚ)) = [] then []
        else safe_normalize (cs.clusters.map (fun c => (c.count : ℚ))))).map (fun cp =>
        { cluster_id := cp.1.cluster_id, category := resolveCategory cp.1,
          cluster_pop_score := round3 cp.2,
          trend_score := round3 (dictGetD trend_scores (resolveCategory cp.1) 0),
          combined_score := round3 ((0.6 : ℚ) * dictGetD trend_scores (resolveCategory cp.1) 0
            + (0.4 : ℚ) * cp.2),
          sample_indices := cp.1.sample_indices.take 3 : CombinedEntry }) := rfl

/-- A default entry used only to read a position of the clusters list. -/
def defaultCombinedEntry : CombinedEntry :=
  { cluster_id := 0, category := "", cluster_pop_score := 0, trend_score := 0,
    combined_score := 0, sample_indices := [] }

/-- Claim C2 as amended: at every position i of the combined entries list,
the entry stores round3 of the normalized cluster popularity at position i
as its cluster_pop_score, round3 of the looked-up trend value of its
category (0.0 when the category is absent from the mapping) as its
trend_score, and its combined_score equals
round3 (0.6 * trend + 0.4 * cluster_pop_score) computed from that looked-up
trend value and that same positional popularity, which lies in [0, 1]; for a
trend mapping with values in [0, 1] the combined_score lies in [0, 1].
(The original claim omitted the three-decimal rounding applied by the
source.) -/
theorem C2_combined_score (trend_scores : List (String × ℚ)) (cs : ClustersResult)
    (hts : ∀ kv ∈ trend_scores, 0 ≤ kv.2 ∧ kv.2 ≤ 1) :
    ∀ i, i < (combine_trends_with_clusters trend_scores cs).clusters.length →
      (0 ≤ (safe_normalize (cs.clusters.map (fun c => (c.count : ℚ)))).getD i 0
        ∧ (safe_normalize (cs.clusters.map (fun c => (c.count : ℚ)))).getD i 0 ≤ 1)
      ∧ ((combine_trends_with_clusters trend_scores cs).clusters.getD i
          defaultCombinedEntry).cluster_pop_score =
          round3 ((safe_normalize (cs.clusters.map (fun c => (c.count : ℚ)))).getD i 0)
      ∧ ((combine_trends_with_clusters trend_scores cs).clusters.getD i
          defaultCombinedEntry).trend_score =
          round3 (dictGetD trend_scores
            ((combine_trends_with_clusters trend_scores cs).clusters.getD i
              defaultCombinedEntry).category 0)
      ∧ ((combine_trends_with_clusters trend_scores cs).clusters.getD i
          defaultCombinedEntry).combined_score =
          round3 ((0.6 : ℚ) * dictGetD trend_scores
            ((combine_trends_with_clusters trend_scores cs).clusters.getD i
              defaultCombinedEntry).category 0
            + (0.4 : ℚ) *
              (safe_normalize (cs.clusters.map (fun c => (c.count : ℚ)))).getD i 0)
      ∧ 0 ≤ ((combine_trends_with_clusters trend_scores cs).clusters.getD i
          defaultCombinedEntry).combined_score
      ∧ ((combine_trends_with_clusters trend_scores cs).clusters.getD i
          defaultCombinedEntry).combined_score ≤ 1 := by
  intro i hi
  by_cases hnil : cs.clusters.map (fun c => (c.count : ℚ)) = []
  · exfalso
    rw [combine_clusters_eq, if_pos hnil] at hi
    simp at hi
  · have hlen : (combine_trends_with_clusters trend_scores cs).clusters.length =
        min cs.clusters.length
          (safe_normalize (cs.clusters.map (fun c => (c.count : ℚ)))).length := by
      rw [combine_clusters_eq, if_neg hnil, List.length_map, List.length_zip]
    have hic : i < cs.clusters.length := by rw [hlen] at hi; omega
    have hip : i < (safe_normalize (cs.clusters.map (fun c => (c.count : ℚ)))).length := by
      rw [hlen] at hi; omega
    have hentry : (combine_trends_with_clusters trend_scores cs).clusters.getD i
        defaultCombinedEntry =
        { cluster_id := (cs.clusters[i]).cluster_id,
          category := resolveCategory (cs.clusters[i]),
          cluster_pop_score :=
            round3 ((safe_normalize (cs.clusters.map (fun c => (c.count : ℚ))))[i]),
          trend_score := round3 (dictGetD trend_scores (resolveCategory (cs.clusters[i])) 0),
          combined_score := round3 ((0.6 : ℚ) *
            dictGetD trend_scores (resolveCategory (cs.clusters[i])) 0
            + (0.4 : ℚ) * (safe_normalize (cs.clusters.map (fun c => (c.count : ℚ))))[i]),
          sample_indices := (cs.clusters[i]).sample_indices.take 3 } := by
      rw [combine_clusters_eq, if_neg hnil,
        List.getD_eq_getElem _ _ (by rw [List.length_map, List.length_zip]; omega),
        List.getElem_map, List.getElem_zip]
    have hgd : (safe_normalize (cs.clusters.map (fun c => (c.count : ℚ)))).getD i 0 =
        (safe_normalize (cs.clusters.map (fun c => (c.count : ℚ))))[i] :=
      List.getD_eq_getElem _ 0 hip
    have hpop := safe_normalize_mem_unit (cs.clusters.map (fun c => (c.count : ℚ)))
      ((safe_normalize (cs.clusters.map (fun c => (c.count : ℚ))))[i])
      (List.getElem_mem hip)
    have htb := dictGetD_bounded trend_scores (resolveCategory (cs.clusters[i])) 0 hts
      (by norm_num)
    rw [hentry, hgd]
    refine ⟨hpop, rfl, rfl, rfl, ?_, ?_⟩
    · exact (round3_mem_unit _
        (by nlinarith [hpop.1, hpop.2, htb.1, htb.2])
        (by nlinarith [hpop.1, hpop.2, htb.1, htb.2])).1
    · exact (round3_mem_unit _
        (by nlinarith [hpop.1, hpop.2, htb.1, htb.2])
        (by nlinarith [hpop.1, hpop.2, htb.1, htb.2])).2

/-- A one-cluster summary labelled with the category a. -/
def demoSummaryA : ClustersResult :=
  { meta := { n_clusters := 1, source := "mock", sampled := none },
    clusters := [{ cluster_id := 0, count := 10, sample_indices := [],
                   centroid_norm := none, label_hint := some "a" }] }

/-- Counterexample to C2 as stated: with trend score 1/7 for the single
cluster labelled a (whose popularity normalizes to 0), the emitted
combined_score is the rounded 43/500 = 0.086, which differs both from
0.6 * (1/7) + 0.4 * 0 computed on the raw looked-up values and from the same
formula computed on the rounded stored fields. -/
theorem C2_combined_score_counterexample :
    ((combine_trends_with_clusters [("a", (1 : ℚ)/7)] demoSummaryA).clusters.map
      (fun e => e.combined_score)) = [(43 : ℚ)/500]
    ∧ ((combine_trends_with_clusters [("a", (1 : ℚ)/7)] demoSummaryA).clusters.map
      (fun e => e.trend_score)) = [(143 : ℚ)/1000]
    ∧ ((combine_trends_with_clusters [("a", (1 : ℚ)/7)] demoSummaryA).clusters.map
      (fun e => e.cluster_pop_score)) = [(0 : ℚ)]
    ∧ (43 : ℚ)/500 ≠ (0.6 : ℚ) * ((1 : ℚ)/7) + (0.4 : ℚ) * 0
    ∧ (43 : ℚ)/500 ≠ (0.6 : ℚ) * ((143 : ℚ)/1000) + (0.4 : ℚ) * 0 := by
  refine ⟨?_, ?_, ?_, by norm_num, by norm_num⟩
  · simp [combine_trends_with_clusters, demoSummaryA, resolveCategory, dictGetD,
      safe_normalize, pymax, pymin]
    norm_num [round3, pythonRound]
  · simp [combine_trends_with_clusters, demoSummaryA, resolveCategory, dictGetD,
      safe_normalize, pymax, pymin]
    norm_num [round3, pythonRound]
  · simp [combine_trends_with_clusters, demoSummaryA, resolveCategory, dictGetD,
      safe_normalize, pymax, pymin]
    norm_num [round3, pythonRound]

/-- Witness for C2: the amended claim instantiated at position 0 of the
counterexample input. -/
theorem C2_combined_score_witness :
    (0 ≤ (safe_normalize (demoSummaryA.clusters.map (fun c => (c.count : ℚ)))).getD 0 0
      ∧ (safe_normalize (demoSummaryA.clusters.map (fun c => (c.count : ℚ)))).getD 0 0 ≤ 1)
    ∧ ((combine_trends_with_clusters [("a", (1 : ℚ)/7)] demoSummaryA).clusters.getD 0
        defaultCombinedEntry).cluster_pop_score =
        round3 ((safe_normalize (demoSummaryA.clusters.map (fun c => (c.count : ℚ)))).getD 0 0)
    ∧ ((combine_trends_with_clusters [("a", (1 : ℚ)/7)] demoSummaryA).clusters.getD 0
        defaultCombinedEntry).trend_score =
        round3 (dictGetD [("a", (1 : ℚ)/7)]
          ((combine_trends_with_clusters [("a", (1 : ℚ)/7)] demoSummaryA).clusters.getD 0
            defaultCombinedEntry).category 0)
    ∧ ((combine_trends_with_clusters [("a", (1 : ℚ)/7)] demoSummaryA).clusters.getD 0
        defaultCombinedEntry).combined_score =
        round3 ((0.6 : ℚ) * dictGetD [("a", (1 : ℚ)/7)]
          ((combine_trends_with_clusters [("a", (1 : ℚ)/7)] demoSummaryA).clusters.getD 0
            defaultCombinedEntry).category 0
          + (0.4 : ℚ) *
            (safe_normalize (demoSummaryA.clusters.map (fun c => (c.count : ℚ)))).getD 0 0)
    ∧ 0 ≤ ((combine_trends_with_clusters [("a", (1 : ℚ)/7)] demoSummaryA).clusters.getD 0
        defaultCombinedEntry).combined_score
    ∧ ((combine_trends_with_clusters [("a", (1 : ℚ)/7)] demoSummaryA).clusters.getD 0
        defaultCombinedEntry).combined_score ≤ 1 :=
  C2_combined_score [("a", (1 : ℚ)/7)] demoSummaryA (by norm_num) 0 (by
    rw [combine_clusters_eq]
    simp [demoSummaryA, safe_normalize_length])

-- ---------------------------------------------------------------------------
-- C7
-- ---------------------------------------------------------------------------

/-- A one-cluster summary labelled linen, as in the spec example. -/
def linenSummary : ClustersResult :=
  { meta := { n_clusters := 1, source := "mock", sampled := none },
    clusters := [{ cluster_id := 0, count := 10, sample_indices := [],
                   centroid_norm := none, label_hint := some "linen" }] }

/-- A summary with no clusters at all. -/
def emptySummary : ClustersResult :=
  { meta := { n_clusters := 0, source := "mock", sampled := none }, clusters := [] }

/-- Claim C7 as amended: every category of the trend mapping that matches no
resolved cluster category is emitted exactly once in extra_trends, in the
mapping's first-seen order, carrying its trend score rounded to three
decimals (the original claim said the score is preserved exactly, which the
rounding breaks for scores that are not three-decimal values); matched
categories are never emitted; the in-particular denim/linen example holds as
stated since 0.5 is its own three-decimal rounding. -/
theorem C7_extra_trends (ts : List (String × ℚ)) (cs : ClustersResult)
    (hnd : (ts.map Prod.fst).Nodup) :
    ((combine_trends_with_clusters ts cs).extra_trends =
      (ts.filter (fun kv =>
        !((combine_trends_with_clusters ts cs).clusters.any
          (fun ci => ci.category == kv.1)))).map (fun kv => (kv.1, round3 kv.2)))
    ∧ ((combine_trends_with_clusters ts cs).extra_trends.map Prod.fst).Nodup
    ∧ (∀ kv ∈ ts,
        ((combine_trends_with_clusters ts cs).clusters.any
          (fun ci => ci.category == kv.1)) = false →
        (kv.1, round3 kv.2) ∈ (combine_trends_with_clusters ts cs).extra_trends)
    ∧ (∀ kv ∈ ts,
        ((combine_trends_with_clusters ts cs).clusters.any
          (fun ci => ci.category == kv.1)) = true →
        ∀ e ∈ (combine_trends_with_clusters ts cs).extra_trends, e.1 ≠ kv.1)
    ∧ (combine_trends_with_clusters [("denim", (1 : ℚ)/2), ("linen", (9 : ℚ)/10)]
        linenSummary).extra_trends = [("denim", (1 : ℚ)/2)] := by
  refine ⟨rfl, ?_, ?_, ?_, ?_⟩
  · have hfst : ((combine_trends_with_clusters ts cs).extra_trends.map Prod.fst) =
        ((ts.filter (fun kv =>
          !((combine_trends_with_clusters ts cs).clusters.any
            (fun ci => ci.category == kv.1)))).map Prod.fst) := by
      show ((ts.filter _).map (fun kv => (kv.1, round3 kv.2))).map Prod.fst = _
      rw [List.map_map]
      rfl
    rw [hfst]
    exact hnd.sublist ((List.filter_sublist ts).map Prod.fst)
  · intro kv hkv hfalse
    have hmemf : kv ∈ ts.filter (fun kv =>
        !((combine_trends_with_clusters ts cs).clusters.any
          (fun ci => ci.category == kv.1))) := by
      rw [List.mem_filter]
      exact ⟨hkv, by rw [hfalse]; rfl⟩
    exact List.mem_map.mpr ⟨kv, hmemf, rfl⟩
  · intro kv hkv htrue e hee heq
    have he2 : e ∈ (ts.filter (fun kv =>
        !((combine_trends_with_clusters ts cs).clusters.any
          (fun ci => ci.category == kv.1)))).map (fun kv => (kv.1, round3 kv.2)) := hee
    rcases List.mem_map.mp he2 with ⟨kv', hkvf, hkve⟩
    rw [List.mem_filter] at hkvf
    have hk1 : kv'.1 = kv.1 := by rw [← hkve] at heq; exact heq
    have h2 := hkvf.2
    rw [hk1, htrue] at h2
    simp at h2
  · have hd : ("denim" : String).length = 5 := rfl
    simp [combine_trends_with_clusters, linenSummary, resolveCategory, dictGetD,
      safe_normalize, pymax, pymin]
    norm_num [round3, pythonRound]

/-- Counterexample to C7 as stated: with no clusters, the category a with
trend score 1/3 is emitted in extra_trends with score 333/1000, not with its
score 1/3 preserved. -/
theorem C7_extra_trends_counterexample :
    (combine_trends_with_clusters [("a", (1 : ℚ)/3)] emptySummary).extra_trends =
      [("a", (333 : ℚ)/1000)]
    ∧ ((333 : ℚ)/1000) ≠ (1 : ℚ)/3 := by
  constructor
  · simp [combine_trends_with_clusters, emptySummary, safe_normalize, pymax, pymin]
    norm_num [round3, pythonRound]
  · norm_num

/-- Witness for C7: the amended claim at the denim/linen example input. -/
theorem C7_extra_trends_witness :
    ((combine_trends_with_clusters [("denim", (1 : ℚ)/2), ("linen", (9 : ℚ)/10)]
        linenSummary).extra_trends =
      (([("denim", (1 : ℚ)/2), ("linen", (9 : ℚ)/10)]).filter (fun kv =>
        !((combine_trends_with_clusters [("denim", (1 : ℚ)/2), ("linen", (9 : ℚ)/10)]
          linenSummary).clusters.any
          (fun ci => ci.category == kv.1)))).map (fun kv => (kv.1, round3 kv.2)))
    ∧ ((combine_trends_with_clusters [("denim", (1 : ℚ)/2), ("linen", (9 : ℚ)/10)]
        linenSummary).extra_trends.map Prod.fst).Nodup
    ∧ (∀ kv ∈ [("denim", (1 : ℚ)/2), ("linen", (9 : ℚ)/10)],
        ((combine_trends_with_clusters [("denim", (1 : ℚ)/2), ("linen", (9 : ℚ)/10)]
          linenSummary).clusters.any (fun ci => ci.category == kv.1)) = false →
        (kv.1, round3 kv.2) ∈
          (combine_trends_with_clusters [("denim", (1 : ℚ)/2), ("linen", (9 : ℚ)/10)]
            linenSummary).extra_trends)
    ∧ (∀ kv ∈ [("denim", (1 : ℚ)/2), ("linen", (9 : ℚ)/10)],
        ((combine_trends_with_clusters [("denim", (1 : ℚ)/2), ("linen", (9 : ℚ)/10)]
          linenSummary).clusters.any (fun ci => ci.category == kv.1)) = true →
        ∀ e ∈ (combine_trends_with_clusters [("denim", (1 : ℚ)/2), ("linen", (9 : ℚ)/10)]
          linenSummary).extra_trends, e.1 ≠ kv.1)
    ∧ (combine_trends_with_clusters [("denim", (1 : ℚ)/2), ("linen", (9 : ℚ)/10)]
        linenSummary).extra_trends = [("denim", (1 : ℚ)/2)] :=
  C7_extra_trends [("denim", (1 : ℚ)/2), ("linen", (9 : ℚ)/10)] linenSummary (by decide)

-- ---------------------------------------------------------------------------
-- API endpoints (api_trends and api_combined)
-- ---------------------------------------------------------------------------

/-- Split a character list at commas, keeping empty segments, as the Python
string split on a comma does. -/
def splitCommaChars : List Char → List (List Char)
  | [] => [[]]
  | c :: rest =>
    if c = ',' then [] :: splitCommaChars rest
    else
      match splitCommaChars rest with
      | [] => [[c]]
      | g :: gs => (c :: g) :: gs

/-- Strip leading and trailing whitespace from a segment, modelling the
Python strip method. -/
def stripChars (l : List Char) : List Char :=
  ((l.dropWhile Char.isWhitespace).reverse.dropWhile Char.isWhitespace).reverse

/-- The keyword parsing common to the endpoints: split the query string on
commas, strip each piece, and keep the nonempty ones. -/
def parseKeywords (s : String) : List String :=
  (((splitCommaChars s.toList).map stripChars).filter (fun g => !g.isEmpty)).map
    (fun g => String.mk g)

/-- A caller-facing outcome: a successful payload or a rejected request with
an HTTP status code and message. -/
inductive ApiResult (α : Type) where
  | success (val : α)
  | rejected (code : ℕ) (msg : String)

/-- Whether an outcome is a success. -/
def ApiResult.isSuccess {α : Type} : ApiResult α → Bool
  | ApiResult.success _ => true
  | ApiResult.rejected _ _ => false

/-- The body of an api_trends response: the source tag, the optional
diagnostic message of a provider failure, and the score mapping. -/
structure TrendsPayload where
  source : String
  errMsg : Option String
  scores : List (String × ℚ)

/-- Model of the api_trends endpoint.  A missing or empty keywords query, or
one that parses to no valid keyword, is rejected with status 400; otherwise
the live fetch is tried when pytrends is available, falling back to the mock
scores on a fetch error, and the mock scores are used directly when pytrends
is unavailable. -/
def api_trends (hasPytrends : Bool)
    (provider : List String → Except String (Option DF))
    (h : String → ℤ) (keywords : Option String) : ApiResult TrendsPayload :=
  match keywords with
  | none => ApiResult.rejected 400 "please provide ?keywords=kw1,kw2,..."
  | some s =>
    if s = "" then ApiResult.rejected 400 "please provide ?keywords=kw1,kw2,..."
    else
      let kws := parseKeywords s
      if kws = [] then ApiResult.rejected 400 "no valid keywords provided"
      else if hasPytrends then
        match fetch_google_trends true provider kws with
        | Except.ok r => ApiResult.success { source := "pytrends", errMsg := none, scores := r }
        | Except.error e =>
          ApiResult.success { source := "fallback_pytrends_error", errMsg := some e,
                              scores := mock_trend_scores h kws }
      else ApiResult.success { source := "mock", errMsg := none, scores := mock_trend_scores h kws }

/-- The category-to-score mapping read off the curated mock trends feed. -/
def curatedTrendScores : List (String × ℚ) :=
  [("linen", 92/100), ("oversized-blazer", 79/100), ("pastel-denim", 66/100),
   ("sustainable-fabrics", 87/100), ("athleisure", 58/100)]

/-- Model of the api_combined endpoint.  A missing or empty keywords query is
not rejected: the curated mock categories are used instead.  A present
keyword string is parsed; the live fetch is tried when pytrends is
available, falling back to mock scores on error.  The cluster summary is
computed (sample_limit keeps its default 5000) and combined with the trend
scores; the endpoint always succeeds. -/
def api_combined (hasPytrends : Bool)
    (provider : List String → Except String (Option DF)) (h : String → ℤ)
    (hasSklearn : Bool)
    (pipeline : ℤ → ℤ → Except String (List ℤ × List ℤ × List ℚ))
    (mockEnt fbEnt : ℕ → ℤ × List ℤ × String)
    (keywords : Option String) (n_clusters : ℤ) (cache : ClusterCache) :
    ApiResult CombineResult × ClusterCache :=
  let trend_scores :=
    match keywords with
    | none => curatedTrendScores
    | some s =>
      if s = "" then curatedTrendScores
      else
        let kws := parseKeywords s
        if hasPytrends then
          match fetch_google_trends true provider kws with
          | Except.ok r => r
          | Except.error _ => mock_trend_scores h kws
        else mock_trend_scores h kws
  let cres := compute_fashion_clusters hasSklearn pipeline mockEnt fbEnt n_clusters 5000 cache
  (ApiResult.success (combine_trends_with_clusters trend_scores cres.1), cres.2)

-- ---------------------------------------------------------------------------
-- C8
-- ---------------------------------------------------------------------------

lemma mock_trend_scores_nil (h : String → ℤ) : mock_trend_scores h [] = [] := rfl

/-- Claim C8 as amended: api_trends rejects an absent, empty, or
parsing-to-empty keyword list with status 400; but the rejection contract
does not extend to every keyword-taking operation: api_combined never
rejects, substituting the curated mock categories when keywords are absent
or empty and proceeding with whatever the parser returns otherwise (an empty
trend mapping when pytrends parses no keyword). -/
theorem C8_empty_keywords (hasPytrends : Bool)
    (provider : List String → Except String (Option DF)) (h : String → ℤ)
    (hasSklearn : Bool)
    (pipeline : ℤ → ℤ → Except String (List ℤ × List ℤ × List ℚ))
    (mockEnt fbEnt : ℕ → ℤ × List ℤ × String) (n_clusters : ℤ) (cache : ClusterCache) :
    (api_trends hasPytrends provider h none =
      ApiResult.rejected 400 "please provide ?keywords=kw1,kw2,...")
    ∧ (api_trends hasPytrends provider h (some "") =
      ApiResult.rejected 400 "please provide ?keywords=kw1,kw2,...")
    ∧ (∀ s : String, s ≠ "" → parseKeywords s = [] →
        api_trends hasPytrends provider h (some s) =
          ApiResult.rejected 400 "no valid keywords provided")
    ∧ (api_combined hasPytrends provider h hasSklearn pipeline mockEnt fbEnt none
        n_clusters cache =
          (ApiResult.success (combine_trends_with_clusters curatedTrendScores
            (compute_fashion_clusters hasSklearn pipeline mockEnt fbEnt n_clusters
              5000 cache).1),
           (compute_fashion_clusters hasSklearn pipeline mockEnt fbEnt n_clusters
              5000 cache).2))
    ∧ (∀ s : String, s ≠ "" → parseKeywords s = [] →
        (api_combined hasPytrends provider h hasSklearn pipeline mockEnt fbEnt (some s)
          n_clusters cache).1 =
          ApiResult.success (combine_trends_with_clusters []
            (compute_fashion_clusters hasSklearn pipeline mockEnt fbEnt n_clusters
              5000 cache).1)) := by
  refine ⟨rfl, rfl, ?_, rfl, ?_⟩
  · intro s hs hparse
    simp [api_trends, hs, hparse]
  · intro s hs hparse
    cases hasPytrends with
    | false => simp [api_combined, hs, hparse, mock_trend_scores_nil]
    | true => simp [api_combined, hs, hparse, fetch_empty_keywords]

/-- Counterexample to C8 as stated: a combined request with no keywords query
is answered successfully (degraded to the curated categories), not rejected,
so not every keyword-taking operation rejects an absent keyword list. -/
theorem C8_empty_keywords_counterexample :
    (api_combined true (fun _ => Except.error "blocked") (fun _ => 0) false
      demoPipeline demoMockEnt demoFbEnt none 8 none).1.isSuccess = true := rfl

/-- Witness for C8: the rejection and degradation behaviours at concrete
arguments, with the comma-only string as the parsing-to-empty case. -/
theorem C8_empty_keywords_witness :
    (api_trends true (fun _ => Except.error "blocked") (fun _ => 0) none =
      ApiResult.rejected 400 "please provide ?keywords=kw1,kw2,...")
    ∧ (("," : String) ≠ "" ∧ parseKeywords "," = [])
    ∧ (api_trends true (fun _ => Except.error "blocked") (fun _ => 0) (some ",") =
        ApiResult.rejected 400 "no valid keywords provided")
    ∧ ((api_combined true (fun _ => Except.error "blocked") (fun _ => 0) false
        demoPipeline demoMockEnt demoFbEnt (some ",") 3 none).1 =
        ApiResult.success (combine_trends_with_clusters []
          (compute_fashion_clusters false demoPipeline demoMockEnt demoFbEnt 3
            5000 none).1)) := by
  have hstr : ("," : String) ≠ "" := by decide
  have hparse : parseKeywords "," = [] := by decide
  refine ⟨(C8_empty_keywords true (fun _ => Except.error "blocked") (fun _ => 0) false
      demoPipeline demoMockEnt demoFbEnt 3 none).1, ⟨hstr, hparse⟩, ?_, ?_⟩
  · exact (C8_empty_keywords true (fun _ => Except.error "blocked") (fun _ => 0) false
      demoPipeline demoMockEnt demoFbEnt 3 none).2.2.1 "," hstr hparse
  · exact (C8_empty_keywords true (fun _ => Except.error "blocked") (fun _ => 0) false
      demoPipeline demoMockEnt demoFbEnt 3 none).2.2.2.2 "," hstr hparse
